import Mathlib

/-!
Verification development for the meshguard-js SDK.

Shallow embedding of `src/client.ts` (the `MeshGuardClient` decision protocol:
`check`, `enforce`, `govern`, passthrough `request`, admin operations),
`src/exceptions.ts` (the error taxonomy) and `src/langchain.ts`
(the tool-governance layer).

The HTTP transport is abstracted as an oracle: each operation receives a
`FetchResult` describing what the single outbound `fetch` would have produced
(a response, or a transport failure).  JSON parsing of a response body is
abstracted as a `bodyJson` field on the response: `some obj` means
`JSON.parse(bodyText)` succeeds and yields an object whose relevant string
fields are those of `obj`; `none` means parsing fails.  `safeJson` reproduces
the total parse of the source (empty or unparseable text yields the empty object).
Thrown exceptions are modelled by `Except MGError`.
-/

namespace MeshGuard

/-- The single-quote character as a string, used in composed error messages. -/
def squote : String := String.singleton (Char.ofNat 39)

/-- JavaScript truthiness of an optional string: `undefined` and `""` are falsy. -/
def truthy : Option String → Bool
  | none => false
  | some s => !(s == "")

/-- Record of the string fields the client reads from a parsed JSON body
(`action`, `policy`, `rule`, `message`), together with the collection fields
read by the admin operations (`agents`, `policies`, `entries`). -/
structure JsonAgent where
  id : Option String
  name : Option String
  trustTier : Option String
  tags : Option (List String)
  orgId : Option String
deriving DecidableEq

structure PolicyRec where
  id : Option String
  name : Option String
deriving DecidableEq

structure AuditRec where
  id : Option String
  timestamp : Option String
  action : Option String
  decision : Option String
deriving DecidableEq

structure JsonObj where
  action : Option String
  policy : Option String
  rule : Option String
  message : Option String
  agents : Option (List JsonAgent)
  policies : Option (List PolicyRec)
  entries : Option (List AuditRec)
deriving DecidableEq

/-- The empty JSON object. -/
def emptyJson : JsonObj :=
  ⟨none, none, none, none, none, none, none⟩

/-- An HTTP response: status, raw body text, and the result of `JSON.parse`
on the body text (`none` when the text does not parse to an object). -/
structure Response where
  status : Nat
  bodyText : String
  bodyJson : Option JsonObj
deriving DecidableEq

/-- `safeJson` from `client.ts`: empty body or a parse failure yields the empty object. -/
def safeJson (r : Response) : JsonObj :=
  if r.bodyText = "" then emptyJson else r.bodyJson.getD emptyJson

/-- The error taxonomy of `exceptions.ts`, plus `networkError` for transport
failures (a rejected `fetch`), which are not MeshGuard errors but must be
modelled for propagation. -/
inductive MGError where
  | meshGuardError (message : String)
  | authenticationError (message : String)
  | policyDeniedError (action : String) (policy : Option String)
      (rule : Option String) (reason : String)
  | rateLimitError (message : String)
  | networkError (message : String)
deriving DecidableEq

/-- Message composition of the `PolicyDeniedError` constructor:
first the action segment, then the policy segment when `policy` is truthy,
then the rule segment when `rule` is truthy, then the reason. -/
def policyDeniedMessage (action : String) (policy : Option String)
    (rule : Option String) (reason : String) : String :=
  let m1 := "Action " ++ squote ++ action ++ squote ++ " denied"
  let m2 := match policy with
    | some p => if p == "" then m1 else m1 ++ " by policy " ++ squote ++ p ++ squote
    | none => m1
  let m3 := match rule with
    | some r => if r == "" then m2 else m2 ++ " (rule: " ++ r ++ ")"
    | none => m2
  m3 ++ ": " ++ reason

/-- The `PolicyDeniedError` constructor: the `reason` field defaults to
`"Access denied by policy"` when the option is not supplied. -/
def mkPolicyDeniedError (action : String) (policy : Option String)
    (rule : Option String) (reason : Option String) : MGError :=
  .policyDeniedError action policy rule (reason.getD "Access denied by policy")

/-- The `message` property of a constructed error. -/
def MGError.message : MGError → String
  | .meshGuardError m => m
  | .authenticationError m => m
  | .policyDeniedError a p r re => policyDeniedMessage a p r re
  | .rateLimitError m => m
  | .networkError m => m

/-- A header map, as a function from header names to optional values
(`Record<string, string>`). -/
def HeaderMap : Type := String → Option String

/-- The empty header record. -/
def hempty : HeaderMap := fun _ => none

/-- `h[k] = v`: set one key of a header record. -/
def hset (h : HeaderMap) (k v : String) : HeaderMap :=
  fun q => if q = k then some v else h q

/-- `Object.assign(base, extra)`: every key present in `extra` overwrites
the corresponding key of `base`. -/
def hassign (base extra : HeaderMap) : HeaderMap :=
  fun q => match extra q with
    | some v => some v
    | none => base q

/-- The immutable client configuration (`MeshGuardClient` fields after
construction). -/
structure MeshGuardClient where
  gatewayUrl : String
  agentToken : Option String
  adminToken : Option String
  timeout : Nat
  traceId : String
deriving DecidableEq

/-- `headers(includeAuth)`: the trace-id header, plus a bearer `Authorization`
header when auth is included and the agent token is truthy. -/
def MeshGuardClient.headers (c : MeshGuardClient) (includeAuth : Bool) : HeaderMap :=
  let h := hset hempty "X-MeshGuard-Trace-ID" c.traceId
  if includeAuth && truthy c.agentToken then
    hset h "Authorization" ("Bearer " ++ c.agentToken.getD "")
  else h

/-- `adminHeaders()`: throws `AuthenticationError` when the admin token is
falsy; otherwise the admin-token and trace-id headers. -/
def MeshGuardClient.adminHeaders (c : MeshGuardClient) : Except MGError HeaderMap :=
  if truthy c.adminToken then
    .ok (hset (hset hempty "X-Admin-Token" (c.adminToken.getD ""))
      "X-MeshGuard-Trace-ID" c.traceId)
  else
    .error (.authenticationError "Admin token required for this operation")

/-- Result of the single outbound `fetch` of an operation: a response, or a
transport failure (network error / timeout abort). -/
inductive FetchResult where
  | ok (r : Response)
  | fail (message : String)
deriving DecidableEq

/-- `handleResponse` from `client.ts`: 401 → `AuthenticationError`;
403 → `PolicyDeniedError` built from the safely-parsed body; 429 →
`RateLimitError`; any other status ≥ 400 → generic `MeshGuardError` with
status and body text; otherwise the safely-parsed body. -/
def handleResponse (response : Response) : Except MGError JsonObj :=
  if response.status = 401 then
    .error (.authenticationError "Invalid or expired token")
  else if response.status = 403 then
    let data := safeJson response
    .error (.policyDeniedError (data.action.getD "unknown") data.policy data.rule
      (data.message.getD "Access denied by policy"))
  else if response.status = 429 then
    .error (.rateLimitError "Rate limit exceeded")
  else if 400 ≤ response.status then
    .error (.meshGuardError ("Request failed: " ++ toString response.status
      ++ " " ++ response.bodyText))
  else
    .ok (safeJson response)

/-- Result of one policy evaluation (`PolicyDecision` in `types.ts`). -/
structure PolicyDecision where
  allowed : Bool
  action : String
  decision : String
  policy : Option String
  rule : Option String
  reason : Option String
  traceId : Option String
deriving DecidableEq

/-- The headers `check` sends: `headers()` plus the action header and, when
the resource argument is truthy, the resource header. -/
def checkHeaders (c : MeshGuardClient) (action : String)
    (resource : Option String) : HeaderMap :=
  let h := hset (c.headers true) "X-MeshGuard-Action" action
  if truthy resource then hset h "X-MeshGuard-Resource" (resource.getD "") else h

/-- `check(action, resource)`: 403 responses become a deny decision built
from the safely-parsed body; other responses go through `handleResponse`
and yield an allow decision; a `PolicyDeniedError` thrown inside the `try`
block is caught and converted back into a deny decision; every other thrown
error propagates. -/
def MeshGuardClient.check (c : MeshGuardClient) (action : String)
    (resource : Option String) (fr : FetchResult) :
    Except MGError PolicyDecision :=
  let _h := checkHeaders c action resource
  match fr with
  | .fail e => .error (.networkError e)
  | .ok response =>
    if response.status = 403 then
      let data := safeJson response
      .ok { allowed := false, action := action, decision := "deny",
            policy := data.policy, rule := data.rule, reason := data.message,
            traceId := some c.traceId }
    else
      match handleResponse response with
      | .ok data =>
        .ok { allowed := true, action := action, decision := "allow",
              policy := data.policy, rule := none, reason := none,
              traceId := some c.traceId }
      | .error (.policyDeniedError _a p r re) =>
        .ok { allowed := false, action := action, decision := "deny",
              policy := p, rule := r, reason := some re,
              traceId := some c.traceId }
      | .error e => .error e

/-- `enforce(action, resource)`: delegates to `check`; a non-allowed decision
is converted into a thrown `PolicyDeniedError` built from the action and the
`policy`, `rule`, `reason` fields of the decision. -/
def MeshGuardClient.enforce (c : MeshGuardClient) (action : String)
    (resource : Option String) (fr : FetchResult) :
    Except MGError PolicyDecision :=
  match c.check action resource fr with
  | .error e => .error e
  | .ok decision =>
    if decision.allowed then .ok decision
    else .error (mkPolicyDeniedError action decision.policy decision.rule
      decision.reason)

/-- `govern(action, fn, resource)`: runs `enforce`, then invokes `fn` once and
returns its result.  `fn` is modelled state-passing (`σ → T × σ`) so that the
number of invocations is observable in the final state; on a thrown error the
state is returned unchanged (zero invocations). -/
def MeshGuardClient.govern {σ T : Type} (c : MeshGuardClient) (action : String)
    (fn : σ → T × σ) (resource : Option String) (fr : FetchResult) (s : σ) :
    Except MGError T × σ :=
  match c.enforce action resource fr with
  | .error e => (.error e, s)
  | .ok _ => (.ok (fn s).1, (fn s).2)

/-- The headers of a passthrough `request`: `headers()` plus the action
header, then `Object.assign` with the caller-supplied extra headers. -/
def requestHeaders (c : MeshGuardClient) (action : String)
    (extra : HeaderMap) : HeaderMap :=
  hassign (hset (c.headers true) "X-MeshGuard-Action" action) extra

/-- `request(method, path, action, init)`: sends the merged headers through
the proxy and applies `handleResponse`; on success the raw response is
returned. -/
def MeshGuardClient.request (c : MeshGuardClient) (method path action : String)
    (extra : HeaderMap) (fr : FetchResult) : Except MGError Response :=
  let _m := method
  let _p := path
  let _h := requestHeaders c action extra
  match fr with
  | .fail e => .error (.networkError e)
  | .ok response =>
    match handleResponse response with
    | .error e => .error e
    | .ok _ => .ok response

/-- A governed tool (`GovernedTool` in `langchain.ts`): holds the invocation
function of the wrapped tool, the action, the client, and an optional
deny-handler.  The wrapped tool is modelled as a pure function on an
arbitrary input type. -/
structure GovernedTool (Input Output : Type) where
  name : String
  description : String
  action : String
  tool : Input → Output
  client : MeshGuardClient
  onDeny : Option (MGError → Input → Output)

/-- `GovernedTool.invoke`: `enforce` the action; on success forward to the
wrapped tool.  A thrown `PolicyDeniedError` is routed to the deny-handler
when one is supplied; every other error, and a denial without handler,
propagates. -/
def GovernedTool.invoke {Input Output : Type} (g : GovernedTool Input Output)
    (fr : FetchResult) (input : Input) : Except MGError Output :=
  match g.client.enforce g.action none fr with
  | .ok _ => .ok (g.tool input)
  | .error e =>
    match e, g.onDeny with
    | .policyDeniedError a p r re, some h =>
      .ok (h (.policyDeniedError a p r re) input)
    | _, _ => .error e

/-- A parsed agent record as produced by `listAgents`. -/
structure Agent where
  id : Option String
  name : Option String
  trustTier : Option String
  tags : List String
  orgId : Option String
deriving DecidableEq

/-- `listAgents()`: admin headers first (throwing before any fetch when the
admin token is missing), then one fetch, `handleResponse`, and the mapping of
`data.agents ?? []` with `tags` defaulted to `[]`.  The second component
counts transport calls. -/
def MeshGuardClient.listAgents (c : MeshGuardClient) (fr : FetchResult) :
    Except MGError (List Agent) × Nat :=
  match c.adminHeaders with
  | .error e => (.error e, 0)
  | .ok _h =>
    match fr with
    | .fail e => (.error (.networkError e), 1)
    | .ok response =>
      match handleResponse response with
      | .error e => (.error e, 1)
      | .ok data =>
        (.ok ((data.agents.getD []).map (fun a =>
          { id := a.id, name := a.name, trustTier := a.trustTier,
            tags := a.tags.getD [], orgId := a.orgId })), 1)

/-- Options accepted by `createAgent`. -/
structure CreateAgentOptions where
  name : String
  trustTier : Option String
  tags : Option (List String)
deriving DecidableEq

/-- The JSON body `createAgent` sends: `trustTier` defaults to `"verified"`
and `tags` to `[]`. -/
structure CreateAgentBody where
  name : String
  trustTier : String
  tags : List String
deriving DecidableEq

/-- `createAgent(options)`: admin headers first, then one POST and
`handleResponse`. -/
def MeshGuardClient.createAgent (c : MeshGuardClient)
    (options : CreateAgentOptions) (fr : FetchResult) :
    Except MGError JsonObj × Nat :=
  match c.adminHeaders with
  | .error e => (.error e, 0)
  | .ok _h =>
    let _body : CreateAgentBody :=
      { name := options.name, trustTier := options.trustTier.getD "verified",
        tags := options.tags.getD [] }
    match fr with
    | .fail e => (.error (.networkError e), 1)
    | .ok response =>
      match handleResponse response with
      | .error e => (.error e, 1)
      | .ok data => (.ok data, 1)

/-- `revokeAgent(agentId)`: admin headers first, then one DELETE and
`handleResponse`; success carries no value. -/
def MeshGuardClient.revokeAgent (c : MeshGuardClient) (agentId : String)
    (fr : FetchResult) : Except MGError Unit × Nat :=
  let _id := agentId
  match c.adminHeaders with
  | .error e => (.error e, 0)
  | .ok _h =>
    match fr with
    | .fail e => (.error (.networkError e), 1)
    | .ok response =>
      match handleResponse response with
      | .error e => (.error e, 1)
      | .ok _ => (.ok (), 1)

/-- `listPolicies()`: admin headers first, then one fetch, `handleResponse`,
and `data.policies ?? []`. -/
def MeshGuardClient.listPolicies (c : MeshGuardClient) (fr : FetchResult) :
    Except MGError (List PolicyRec) × Nat :=
  match c.adminHeaders with
  | .error e => (.error e, 0)
  | .ok _h =>
    match fr with
    | .fail e => (.error (.networkError e), 1)
    | .ok response =>
      match handleResponse response with
      | .error e => (.error e, 1)
      | .ok data => (.ok (data.policies.getD []), 1)

/-- Options accepted by `getAuditLog`. -/
structure AuditLogOptions where
  limit : Option Nat
  decision : Option String
deriving DecidableEq

/-- The query parameters `getAuditLog` sends: `limit` defaults to 50; the
`decision` filter is included only when truthy. -/
def auditQuery (options : AuditLogOptions) : List (String × String) :=
  let ps := [("limit", toString (options.limit.getD 50))]
  if truthy options.decision then
    ps ++ [("decision", options.decision.getD "")]
  else ps

/-- `getAuditLog(options)`: builds the query, admin headers first, then one
fetch, `handleResponse`, and `data.entries ?? []`. -/
def MeshGuardClient.getAuditLog (c : MeshGuardClient)
    (options : AuditLogOptions) (fr : FetchResult) :
    Except MGError (List AuditRec) × Nat :=
  let _q := auditQuery options
  match c.adminHeaders with
  | .error e => (.error e, 0)
  | .ok _h =>
    match fr with
    | .fail e => (.error (.networkError e), 1)
    | .ok response =>
      match handleResponse response with
      | .error e => (.error e, 1)
      | .ok data => (.ok (data.entries.getD []), 1)

def cW : MeshGuardClient :=
  { gatewayUrl := "http://localhost:3100", agentToken := some "tok",
    adminToken := none, timeout := 30000, traceId := "trace-1" }

def body403W : JsonObj :=
  { action := none, policy := some "strict", rule := some "no-contacts",
    message := some "Denied", agents := none, policies := none, entries := none }

def r403W : Response :=
  { status := 403, bodyText := "x", bodyJson := some body403W }

def r204W : Response :=
  { status := 204, bodyText := "", bodyJson := none }

def r403emptyW : Response :=
  { status := 403, bodyText := "", bodyJson := none }

def extraW : HeaderMap := hset hempty "X-MeshGuard-Action" "evil"

def gW : GovernedTool Nat Nat :=
  { name := "t", description := "d", action := "read:contacts",
    tool := fun n => n + 1, client := cW, onDeny := some (fun _ _ => 0) }

/-- Spec-side message composition, written from the spec text for comparison:
the action segment, then the policy segment exactly when the policy option is
present, then the rule segment exactly when the rule option is present, then
the reason. -/
def specPolicyDeniedMessage (action : String) (policy : Option String)
    (rule : Option String) (reason : String) : String :=
  "Action " ++ squote ++ action ++ squote ++ " denied"
    ++ (match policy with
        | some p => " by policy " ++ squote ++ p ++ squote
        | none => "")
    ++ (match rule with
        | some r => " (rule: " ++ r ++ ")"
        | none => "")
    ++ ": " ++ reason

/-- Spec-side composition for the amended claim, written independently of the
constructor: the policy segment appears exactly when the policy option holds
a non-empty string, and the rule segment exactly when the rule option holds a
non-empty string. -/
def amendedPolicyDeniedMessage (action : String) (policy : Option String)
    (rule : Option String) (reason : String) : String :=
  "Action " ++ squote ++ action ++ squote ++ " denied"
    ++ (match policy with
        | some p => if p = "" then "" else " by policy " ++ squote ++ p ++ squote
        | none => "")
    ++ (match rule with
        | some r => if r = "" then "" else " (rule: " ++ r ++ ")"
        | none => "")
    ++ ": " ++ reason

theorem headers_trace (c : MeshGuardClient) (b : Bool) :
    c.headers b "X-MeshGuard-Trace-ID" = some c.traceId := by
  unfold MeshGuardClient.headers
  split <;> simp [hset, hempty]

theorem check_fail (c : MeshGuardClient) (a : String) (rsc : Option String)
    (e : String) : c.check a rsc (.fail e) = .error (.networkError e) := rfl

theorem check_eq (c : MeshGuardClient) (a : String) (rsc : Option String)
    (r : Response) :
    c.check a rsc (.ok r) =
      if r.status = 403 then
        .ok { allowed := false, action := a, decision := "deny",
              policy := (safeJson r).policy, rule := (safeJson r).rule,
              reason := (safeJson r).message, traceId := some c.traceId }
      else if r.status = 401 then
        .error (.authenticationError "Invalid or expired token")
      else if r.status = 429 then
        .error (.rateLimitError "Rate limit exceeded")
      else if 400 ≤ r.status then
        .error (.meshGuardError ("Request failed: " ++ toString r.status
          ++ " " ++ r.bodyText))
      else
        .ok { allowed := true, action := a, decision := "allow",
              policy := (safeJson r).policy, rule := none, reason := none,
              traceId := some c.traceId } := by
  unfold MeshGuardClient.check handleResponse
  by_cases h403 : r.status = 403 <;>
    by_cases h401 : r.status = 401 <;>
      by_cases h429 : r.status = 429 <;>
        by_cases h400 : 400 ≤ r.status <;>
          simp_all <;> first | omega | (rw [if_neg (by omega)]; simp; rw [if_neg (by omega)])

theorem check_no_pde (c : MeshGuardClient) (a : String) (rsc : Option String)
    (fr : FetchResult) (a2 : String) (p r2 : Option String) (re : String) :
    c.check a rsc fr ≠ .error (.policyDeniedError a2 p r2 re) := by
  cases fr with
  | fail e => simp [check_fail]
  | ok r => rw [check_eq]; split_ifs <;> simp

theorem check_ok_shape (c : MeshGuardClient) (a : String) (rsc : Option String)
    (fr : FetchResult) (d : PolicyDecision) (h : c.check a rsc fr = .ok d) :
    d.action = a ∧ d.traceId = some c.traceId ∧
    (d.allowed = true ↔ d.decision = "allow") := by
  cases fr with
  | fail e => simp [check_fail] at h
  | ok r =>
    rw [check_eq] at h
    split_ifs at h <;> simp at h <;> subst h <;> simp

theorem enforce_ok_check (c : MeshGuardClient) (a : String) (rsc : Option String)
    (fr : FetchResult) (d : PolicyDecision) (h : c.enforce a rsc fr = .ok d) :
    c.check a rsc fr = .ok d ∧ d.allowed = true := by
  unfold MeshGuardClient.enforce at h
  cases hc : c.check a rsc fr with
  | error e => rw [hc] at h; simp at h
  | ok d0 =>
    rw [hc] at h
    by_cases hall : d0.allowed <;> simp [hall] at h
    subst h
    exact ⟨rfl, hall⟩

/-- C1 counterexample: with a caller-supplied action header, the merged
header map carries the value supplied by the caller, not the action of the
client call, refuting the claim that caller values do not override. -/
theorem c1_counterexample :
    requestHeaders cW "read:contacts" extraW "X-MeshGuard-Action" = some "evil" ∧
    ¬ requestHeaders cW "read:contacts" extraW "X-MeshGuard-Action" =
      some "read:contacts" := by
  constructor
  · rfl
  · decide

/-- C1 (amended): caller-supplied headers override on collision; when the
caller does not supply the trace or action keys, those headers are the
client trace id and the given action. -/
theorem c1_theorem (c : MeshGuardClient) (action : String) (extra : HeaderMap)
    (htrace : extra "X-MeshGuard-Trace-ID" = none)
    (hact : extra "X-MeshGuard-Action" = none) :
    requestHeaders c action extra "X-MeshGuard-Trace-ID" = some c.traceId ∧
    requestHeaders c action extra "X-MeshGuard-Action" = some action ∧
    ∀ k v, extra k = some v → requestHeaders c action extra k = some v := by
  refine ⟨?_, ?_, ?_⟩
  · simp [requestHeaders, hassign, htrace, hset, headers_trace]
  · simp [requestHeaders, hassign, hact, hset]
  · intro k v hv
    simp [requestHeaders, hassign, hv]

theorem c1_witness :
    requestHeaders cW "read:contacts" hempty "X-MeshGuard-Trace-ID" =
      some "trace-1" ∧
    requestHeaders cW "read:contacts" hempty "X-MeshGuard-Action" =
      some "read:contacts" :=
  ⟨(c1_theorem cW "read:contacts" hempty rfl rfl).1,
   (c1_theorem cW "read:contacts" hempty rfl rfl).2.1⟩

/-- C2 counterexample: a response with status 204, which is neither 200 nor 403, yet check returns
without throwing (an allow decision). -/
theorem c2_counterexample :
    r204W.status ≠ 200 ∧ r204W.status ≠ 403 ∧
    cW.check "read:x" none (.ok r204W) =
      .ok { allowed := true, action := "read:x", decision := "allow",
            policy := none, rule := none, reason := none,
            traceId := some "trace-1" } :=
  ⟨by decide, by decide, rfl⟩

/-- C2 (amended): check returns without throwing exactly on status < 400
(allowed true) or status 403 (allowed false); every status that is at least
400 and not 403 makes check throw. -/
theorem c2_theorem (c : MeshGuardClient) (a : String) (rsc : Option String)
    (r : Response) :
    ((∃ d, c.check a rsc (.ok r) = .ok d ∧ d.allowed = true) ↔
      r.status < 400) ∧
    ((∃ d, c.check a rsc (.ok r) = .ok d ∧ d.allowed = false) ↔
      r.status = 403) ∧
    ((∃ e, c.check a rsc (.ok r) = .error e) ↔
      (400 ≤ r.status ∧ r.status ≠ 403)) := by
  rw [check_eq]
  by_cases h403 : r.status = 403 <;>
    by_cases h401 : r.status = 401 <;>
      by_cases h429 : r.status = 429 <;>
        by_cases h400 : 400 ≤ r.status <;>
          simp_all <;>
            first
            | omega
            | (rw [if_neg (by omega)]; simp; try omega)

/-- C3: check never throws a PolicyDeniedError; a 403 becomes a deny decision
parsed from the body; 401, 429, other 4xx and 5xx, and transport failures
propagate as their respective errors. -/
theorem c3_theorem (c : MeshGuardClient) (a : String) (rsc : Option String)
    (fr : FetchResult) :
    (∀ a2 p r2 re, c.check a rsc fr ≠ .error (.policyDeniedError a2 p r2 re)) ∧
    (∀ r, fr = .ok r → r.status = 403 →
      c.check a rsc fr =
        .ok { allowed := false, action := a, decision := "deny",
              policy := (safeJson r).policy, rule := (safeJson r).rule,
              reason := (safeJson r).message, traceId := some c.traceId }) ∧
    (∀ r, fr = .ok r → r.status = 401 →
      c.check a rsc fr = .error (.authenticationError "Invalid or expired token")) ∧
    (∀ r, fr = .ok r → r.status = 429 →
      c.check a rsc fr = .error (.rateLimitError "Rate limit exceeded")) ∧
    (∀ r, fr = .ok r → 400 ≤ r.status → r.status ≠ 401 → r.status ≠ 403 →
      r.status ≠ 429 →
      c.check a rsc fr = .error (.meshGuardError ("Request failed: "
        ++ toString r.status ++ " " ++ r.bodyText))) ∧
    (∀ e, fr = .fail e → c.check a rsc fr = .error (.networkError e)) := by
  refine ⟨fun a2 p r2 re => check_no_pde c a rsc fr a2 p r2 re, ?_, ?_, ?_, ?_, ?_⟩
  · intro r hfr h403
    subst hfr
    rw [check_eq]
    simp [h403]
  · intro r hfr h401
    subst hfr
    rw [check_eq]
    have : r.status ≠ 403 := by omega
    simp [this, h401]
  · intro r hfr h429
    subst hfr
    rw [check_eq]
    have h1 : r.status ≠ 403 := by omega
    have h2 : r.status ≠ 401 := by omega
    simp [h1, h2, h429]
  · intro r hfr h400 h401 h403 h429
    subst hfr
    rw [check_eq]
    simp [h401, h403, h429, h400]
  · intro e hfr
    subst hfr
    rfl

theorem c3_witness :
    cW.check "read:contacts" none (.ok r403W) =
      .ok { allowed := false, action := "read:contacts", decision := "deny",
            policy := some "strict", rule := some "no-contacts",
            reason := some "Denied", traceId := some "trace-1" } :=
  (c3_theorem cW "read:contacts" none (.ok r403W)).2.1 r403W rfl rfl

/-- C4: enforce throws PolicyDeniedError exactly when check yields a
non-allowed decision, built from the decision fields; an allowed decision is
returned unchanged. -/
theorem c4_theorem (c : MeshGuardClient) (a : String) (rsc : Option String)
    (fr : FetchResult) :
    (∀ d, c.check a rsc fr = .ok d → d.allowed = true →
      c.enforce a rsc fr = .ok d) ∧
    (∀ d, c.check a rsc fr = .ok d → d.allowed = false →
      c.enforce a rsc fr = .error (.policyDeniedError d.action d.policy d.rule
        (d.reason.getD "Access denied by policy"))) ∧
    ((∃ a2 p r2 re, c.enforce a rsc fr = .error (.policyDeniedError a2 p r2 re))
      ↔ (∃ d, c.check a rsc fr = .ok d ∧ d.allowed = false)) := by
  refine ⟨?_, ?_, ?_⟩
  · intro d hc hall
    unfold MeshGuardClient.enforce
    rw [hc]
    simp [hall]
  · intro d hc hall
    unfold MeshGuardClient.enforce
    rw [hc]
    have ha : d.action = a := (check_ok_shape c a rsc fr d hc).1
    simp [hall, mkPolicyDeniedError, ha]
  · constructor
    · rintro ⟨a2, p, r2, re, he⟩
      unfold MeshGuardClient.enforce at he
      cases hc : c.check a rsc fr with
      | error e =>
        rw [hc] at he
        simp at he
        subst he
        exact absurd hc (check_no_pde c a rsc fr a2 p r2 re)
      | ok d =>
        rw [hc] at he
        by_cases hall : d.allowed <;> simp [hall] at he
        exact ⟨d, rfl, by simpa using hall⟩
    · rintro ⟨d, hc, hall⟩
      unfold MeshGuardClient.enforce
      rw [hc]
      simp [hall, mkPolicyDeniedError]

theorem c4_witness :
    cW.enforce "read:contacts" none (.ok r403W) =
      .error (.policyDeniedError "read:contacts" (some "strict")
        (some "no-contacts") "Denied") :=
  (c4_theorem cW "read:contacts" none (.ok r403W)).2.1
    { allowed := false, action := "read:contacts", decision := "deny",
      policy := some "strict", rule := some "no-contacts",
      reason := some "Denied", traceId := some "trace-1" } rfl rfl

/-- C5: on a denied decision govern leaves the state untouched (the callable
runs zero times) and rejects with the PolicyDeniedError; on an allowed
decision the callable runs exactly once and its result is returned. -/
theorem c5_theorem {σ T : Type} (c : MeshGuardClient) (a : String)
    (rsc : Option String) (fr : FetchResult) (fn : σ → T × σ) (s : σ)
    (d : PolicyDecision) (hc : c.check a rsc fr = .ok d) :
    (d.allowed = false →
      c.govern a fn rsc fr s =
        (.error (.policyDeniedError d.action d.policy d.rule
          (d.reason.getD "Access denied by policy")), s)) ∧
    (d.allowed = true →
      c.govern a fn rsc fr s = (.ok (fn s).1, (fn s).2)) := by
  have ha : d.action = a := (check_ok_shape c a rsc fr d hc).1
  constructor
  · intro hall
    unfold MeshGuardClient.govern MeshGuardClient.enforce
    rw [hc]
    simp [hall, mkPolicyDeniedError, ha]
  · intro hall
    unfold MeshGuardClient.govern MeshGuardClient.enforce
    rw [hc]
    simp [hall]

theorem c5_witness :
    cW.govern "read:contacts" (fun n : Nat => (42, n + 1)) none (.ok r403W) 0 =
      (.error (.policyDeniedError "read:contacts" (some "strict")
        (some "no-contacts") "Denied"), 0) :=
  (c5_theorem cW "read:contacts" none (.ok r403W) (fun n : Nat => (42, n + 1)) 0
    { allowed := false, action := "read:contacts", decision := "deny",
      policy := some "strict", rule := some "no-contacts",
      reason := some "Denied", traceId := some "trace-1" } rfl).1 rfl

/-- C6: a PolicyDeniedError from enforcement goes to the deny-handler when
present (its result is returned) and propagates when absent; every other
error propagates even when a handler is supplied. -/
theorem c6_theorem {Input Output : Type} (g : GovernedTool Input Output)
    (fr : FetchResult) (input : Input) :
    (∀ a p r re h,
      g.client.enforce g.action none fr = .error (.policyDeniedError a p r re) →
      g.onDeny = some h →
      g.invoke fr input = .ok (h (.policyDeniedError a p r re) input)) ∧
    (∀ a p r re,
      g.client.enforce g.action none fr = .error (.policyDeniedError a p r re) →
      g.onDeny = none →
      g.invoke fr input = .error (.policyDeniedError a p r re)) ∧
    (∀ e, g.client.enforce g.action none fr = .error e →
      (∀ a p r re, e ≠ .policyDeniedError a p r re) →
      g.invoke fr input = .error e) := by
  refine ⟨?_, ?_, ?_⟩
  · intro a p r re h henf hd
    unfold GovernedTool.invoke
    rw [henf, hd]
  · intro a p r re henf hd
    unfold GovernedTool.invoke
    rw [henf, hd]
  · intro e henf hne
    unfold GovernedTool.invoke
    rw [henf]
    cases e with
    | policyDeniedError a p r re => exact absurd rfl (hne a p r re)
    | meshGuardError m => cases hd : g.onDeny <;> rfl
    | authenticationError m => cases hd : g.onDeny <;> rfl
    | rateLimitError m => cases hd : g.onDeny <;> rfl
    | networkError m => cases hd : g.onDeny <;> rfl

theorem c6_witness :
    gW.invoke (.ok r403W) 5 = .ok 0 :=
  (c6_theorem gW (.ok r403W) 5).1 "read:contacts" (some "strict")
    (some "no-contacts") "Denied" (fun _ _ => 0) rfl rfl

/-- C7: with no admin token configured, every admin operation fails with
AuthenticationError and performs zero transport calls. -/
theorem c7_theorem (c : MeshGuardClient) (h : c.adminToken = none)
    (fr : FetchResult) (options : CreateAgentOptions) (agentId : String)
    (alo : AuditLogOptions) :
    c.listAgents fr =
      (.error (.authenticationError "Admin token required for this operation"), 0) ∧
    c.createAgent options fr =
      (.error (.authenticationError "Admin token required for this operation"), 0) ∧
    c.revokeAgent agentId fr =
      (.error (.authenticationError "Admin token required for this operation"), 0) ∧
    c.listPolicies fr =
      (.error (.authenticationError "Admin token required for this operation"), 0) ∧
    c.getAuditLog alo fr =
      (.error (.authenticationError "Admin token required for this operation"), 0) := by
  have hah : c.adminHeaders =
      .error (.authenticationError "Admin token required for this operation") := by
    unfold MeshGuardClient.adminHeaders
    simp [h, truthy]
  refine ⟨?_, ?_, ?_, ?_, ?_⟩ <;>
    simp [MeshGuardClient.listAgents, MeshGuardClient.createAgent,
      MeshGuardClient.revokeAgent, MeshGuardClient.listPolicies,
      MeshGuardClient.getAuditLog, hah]

theorem c7_witness :
    cW.listAgents (.ok r204W) =
      (.error (.authenticationError "Admin token required for this operation"), 0) ∧
    cW.createAgent ⟨"New Bot", none, none⟩ (.ok r204W) =
      (.error (.authenticationError "Admin token required for this operation"), 0) ∧
    cW.revokeAgent "a1" (.ok r204W) =
      (.error (.authenticationError "Admin token required for this operation"), 0) ∧
    cW.listPolicies (.ok r204W) =
      (.error (.authenticationError "Admin token required for this operation"), 0) ∧
    cW.getAuditLog ⟨none, none⟩ (.ok r204W) =
      (.error (.authenticationError "Admin token required for this operation"), 0) :=
  c7_theorem cW rfl (.ok r204W) ⟨"New Bot", none, none⟩ "a1" ⟨none, none⟩

/-- C8 counterexample: a present-but-empty policy is dropped from the
message, so the message differs from the documented composition. -/
theorem c8_counterexample :
    (mkPolicyDeniedError "a" (some "") none none).message ≠
      specPolicyDeniedMessage "a" (some "") none "Access denied by policy" ∧
    (mkPolicyDeniedError "a" (some "") none none).message =
      "Action " ++ squote ++ "a" ++ squote ++ " denied: Access denied by policy" := by
  constructor
  · decide
  · rfl

/-- C8 (amended): for every action, policy, rule and optional reason, the
constructed message equals the truthiness-aware composition: the policy and
rule segments appear exactly when the respective option holds a non-empty
string, and the reason defaults to "Access denied by policy". -/
theorem c8_theorem (a : String) (p r : Option String) (reOpt : Option String) :
    (mkPolicyDeniedError a p r reOpt).message =
      amendedPolicyDeniedMessage a p r (reOpt.getD "Access denied by policy") := by
  have hbeq : ∀ s : String, s ≠ "" → (s == "") = false := by
    intro s hs
    simp [beq_eq_false_iff_ne, hs]
  cases p with
  | none =>
    cases r with
    | none =>
      simp only [mkPolicyDeniedError, MGError.message, policyDeniedMessage,
        amendedPolicyDeniedMessage, String.append_assoc]
      all_goals simp [String.append_assoc]
    | some rv =>
      by_cases hrv : rv = ""
      · subst hrv
        simp only [mkPolicyDeniedError, MGError.message, policyDeniedMessage,
          amendedPolicyDeniedMessage, String.append_assoc]
        all_goals simp [String.append_assoc]
      · simp only [mkPolicyDeniedError, MGError.message, policyDeniedMessage,
          amendedPolicyDeniedMessage, hbeq rv hrv, Bool.false_eq_true, if_false,
          if_neg hrv, String.append_assoc]
        all_goals simp [String.append_assoc]
  | some pv =>
    by_cases hpv : pv = ""
    · subst hpv
      cases r with
      | none =>
        simp only [mkPolicyDeniedError, MGError.message, policyDeniedMessage,
          amendedPolicyDeniedMessage, String.append_assoc]
        all_goals simp [String.append_assoc]
      | some rv =>
        by_cases hrv : rv = ""
        · subst hrv
          simp only [mkPolicyDeniedError, MGError.message, policyDeniedMessage,
            amendedPolicyDeniedMessage, String.append_assoc]
          all_goals simp [String.append_assoc]
        · simp only [mkPolicyDeniedError, MGError.message, policyDeniedMessage,
            amendedPolicyDeniedMessage, hbeq rv hrv, Bool.false_eq_true,
            if_false, if_neg hrv, String.append_assoc]
          all_goals simp [String.append_assoc]
    · cases r with
      | none =>
        simp only [mkPolicyDeniedError, MGError.message, policyDeniedMessage,
          amendedPolicyDeniedMessage, hbeq pv hpv, Bool.false_eq_true, if_false,
          if_neg hpv, String.append_assoc]
        all_goals simp [String.append_assoc]
      | some rv =>
        by_cases hrv : rv = ""
        · subst hrv
          simp only [mkPolicyDeniedError, MGError.message, policyDeniedMessage,
            amendedPolicyDeniedMessage, hbeq pv hpv, Bool.false_eq_true,
            if_false, if_neg hpv, String.append_assoc]
          all_goals simp [String.append_assoc]
        · simp only [mkPolicyDeniedError, MGError.message, policyDeniedMessage,
            amendedPolicyDeniedMessage, hbeq pv hpv, hbeq rv hrv,
            Bool.false_eq_true, if_false, if_neg hpv, if_neg hrv,
            String.append_assoc]
          all_goals simp [String.append_assoc]

theorem c8_witness :
    (mkPolicyDeniedError "write:email" (some "strict") (some "no-email")
      (some "Email sending blocked")).message =
      amendedPolicyDeniedMessage "write:email" (some "strict") (some "no-email")
        "Email sending blocked" ∧
    (mkPolicyDeniedError "write:email" (some "strict") (some "")
      (some "Email sending blocked")).message =
      amendedPolicyDeniedMessage "write:email" (some "strict") (some "")
        "Email sending blocked" :=
  ⟨ c8_theorem "write:email" (some "strict") (some "no-email")
      (some "Email sending blocked"),
    c8_theorem "write:email" (some "strict") (some "")
      (some "Email sending blocked")⟩

/-- C9: every decision check or enforce returns satisfies allowed iff
decision is allow, carries the checked action, and carries the client trace
id. -/
theorem c9_theorem (c : MeshGuardClient) (a : String) (rsc : Option String)
    (fr : FetchResult) (d : PolicyDecision)
    (h : c.check a rsc fr = .ok d ∨ c.enforce a rsc fr = .ok d) :
    (d.allowed = true ↔ d.decision = "allow") ∧
    d.action = a ∧ d.traceId = some c.traceId := by
  have hc : c.check a rsc fr = .ok d := by
    cases h with
    | inl h => exact h
    | inr h => exact (enforce_ok_check c a rsc fr d h).1
  obtain ⟨h1, h2, h3⟩ := check_ok_shape c a rsc fr d hc
  exact ⟨h3, h1, h2⟩

theorem c9_witness :
    ((false = true) ↔ ("deny" : String) = "allow") ∧
    ("read:contacts" : String) = "read:contacts" ∧
    (some "trace-1" : Option String) = some "trace-1" :=
  c9_theorem cW "read:contacts" none (.ok r403W)
    { allowed := false, action := "read:contacts", decision := "deny",
      policy := some "strict", rule := some "no-contacts",
      reason := some "Denied", traceId := some "trace-1" } (.inl rfl)

/-- C10: a 403 whose body is empty or unparseable still yields a deny
decision with policy, rule and reason all unset. -/
theorem c10_theorem (c : MeshGuardClient) (a : String) (rsc : Option String)
    (r : Response) (h403 : r.status = 403)
    (hbody : r.bodyText = "" ∨ r.bodyJson = none) :
    c.check a rsc (.ok r) =
      .ok { allowed := false, action := a, decision := "deny",
            policy := none, rule := none, reason := none,
            traceId := some c.traceId } := by
  have hs : safeJson r = emptyJson := by
    unfold safeJson
    cases hbody with
    | inl h => simp [h]
    | inr h => split <;> simp [h]
  rw [check_eq]
  simp [h403, hs, emptyJson]

theorem c10_witness :
    cW.check "read:contacts" none (.ok r403emptyW) =
      .ok { allowed := false, action := "read:contacts", decision := "deny",
            policy := none, rule := none, reason := none,
            traceId := some "trace-1" } :=
  c10_theorem cW "read:contacts" none r403emptyW rfl (.inl rfl)

end MeshGuard
